import Mathlib

/-!
Verification of the bq-optimization-agent repository: a shallow embedding of
the repository's tool functions and batch script runner, together with
theorems settling the frozen claims about them.

Embedded components and their sources:

* `get_bq_client`, `_format_table_ref`, `get_job_details`, `get_table_info`
  from `src/bq_optimization/sub_agents/query/tools.py`;
* `analyze_bigquery_sql_anti_patterns`
  from `src/bq_expert_agent/sub_agents/antipattern_agent/agent.py`;
* `run_bigquery_script` and `main`
  from `src/data_science/utils/create_bq_table.py`.

Modelling conventions: external effects (the BigQuery API, the antipattern
HTTP service, the JSON decoder of the standard library) are passed in as
explicit outcome values; a Python function that may raise is modelled as a
total Lean function over those outcomes; a Python `try/except` becomes a
`match` on the outcome.  Python dicts returned by the tools become explicit
inductive results.  Strings are Lean `String`s; the integer counters shown
with Python's `:,` thousands-separator format are `Nat`s rendered by
`fmtComma` below.
-/

namespace BQOpt

/-! ## BigQuery client accessor (tools.py, lines 24-32)

The process-wide `bq_client` global is modelled as explicit state of type
`Option BQClient` threaded through calls.  Constructing
`bigquery.Client(project=project_id)` is modelled as recording the project
argument (which may be `None`, i.e. omitted / inferred from the
environment). -/

structure BQClient where
  project : Option String

/-- `get_bq_client` of tools.py: returns the memoized client, constructing
it on first use; result is the pair (returned client, new global state). -/
def get_bq_client (state : Option BQClient) (project_id : Option String) :
    BQClient × Option BQClient :=
  match state with
  | none => (⟨project_id⟩, some ⟨project_id⟩)
  | some c => (c, some c)

/-- A sequence of `get_bq_client` calls, threading the module-level global:
returns the clients each call observed and the final global state. -/
def run_client_calls : Option BQClient → List (Option String) →
    List BQClient × Option BQClient
  | st, [] => ([], st)
  | st, p :: ps =>
    let r := get_bq_client st p
    let rest := run_client_calls r.2 ps
    (r.1 :: rest.1, rest.2)

/-! ## Table references and the formatter (tools.py, lines 34-38) -/

structure TableRef where
  project : String
  dataset_id : String
  table_id : String

/-- `_format_table_ref` of tools.py: `none` models a falsy (absent)
`TableReference` argument. -/
def _format_table_ref : Option TableRef → String
  | none => "N/A"
  | some t => t.project ++ "." ++ t.dataset_id ++ "." ++ t.table_id

/-! ## Python's thousands-separator formatting `f"{n:,}"` for a Nat -/

/-- Insert a comma after every third character of a reversed digit list. -/
def commaRev : List Char → Nat → List Char
  | [], _ => []
  | c :: cs, k => if k == 3 then ',' :: c :: commaRev cs 1 else c :: commaRev cs (k + 1)

/-- Python's `f"{n:,}"` for a non-negative integer. -/
def fmtComma (n : Nat) : String := ⟨(commaRev (toString n).data.reverse 0).reverse⟩

/-! ## The job data model (fields of the API's job resource read by tools.py) -/

structure SlotContention where
  contended_slots_count : Nat

structure Insight where
  insight_type : String
  slot_contention : SlotContention

structure StandaloneInsight where
  stage_id : Nat
  insight : Insight

structure PerformanceInsights where
  stage_performance_standalone_insights : List StandaloneInsight

structure Stage where
  entry_id : Nat
  name : String
  status : String
  records_read : Nat
  records_written : Nat
  slot_ms : Nat

/-- The job resource as read by `get_job_details`.  `performance_insights =
none` models the attribute being absent (`hasattr` false) or falsy;
`referenced_tables` and `query_plan` are the (possibly empty) lists the API
supplied. -/
structure Job where
  query : String
  referenced_tables : List TableRef
  performance_insights : Option PerformanceInsights
  query_plan : List Stage

/-! ## The defaultdict(list) grouping of insights by stage id -/

/-- `stage_insights[sid].append(ins)` on an association-list model of
`defaultdict(list)`. -/
def addInsight : List (Nat × List Insight) → Nat → Insight → List (Nat × List Insight)
  | [], sid, ins => [(sid, [ins])]
  | (k, l) :: rest, sid, ins =>
    if k == sid then (k, l ++ [ins]) :: rest else (k, l) :: addInsight rest sid ins

/-- Key lookup in the association-list model: `some` exactly when the key
was inserted (Python's `sid in stage_insights`). -/
def lookupInsights : List (Nat × List Insight) → Nat → Option (List Insight)
  | [], _ => none
  | (k, l) :: rest, sid => if k == sid then some l else lookupInsights rest sid

/-- The standalone insights list, empty when the attribute is absent. -/
def insightsOf : Option PerformanceInsights → List StandaloneInsight
  | none => []
  | some p => p.stage_performance_standalone_insights

/-- The `for insight in ...: stage_insights[insight.stage_id].append(insight.insight)`
loop of `get_job_details` (lines 78-82 of tools.py). -/
def buildStageInsights (pinfo : Option PerformanceInsights) : List (Nat × List Insight) :=
  (insightsOf pinfo).foldl (fun m si => addInsight m si.stage_id si.insight) []

/-! ## The job-detail reporter (tools.py, lines 40-106)

The reporter appends lines to `output_lines` and joins them with newlines;
each helper below produces the lines one source block appends, in order. -/

/-- Concatenation of the lines a for-loop body appends, in loop order. -/
def catLines {α : Type} (f : α → List String) : List α → List String
  | [] => []
  | x :: xs => f x ++ catLines f xs

def queryInfoLines (job : Job) : List String :=
  ["--- Query Information ---", "Query Text:\n" ++ job.query]

def refTableItemLine (t : TableRef) : String := "  - " ++ _format_table_ref (some t)

def refTablesLines (ts : List TableRef) : List String :=
  if ts.isEmpty then ["\nReferenced Tables: None"]
  else "\nReferenced Tables:" :: ts.map refTableItemLine

def perfNoticeLines : Option PerformanceInsights → List String
  | some _ => ["\nPerformance insights found. Mapping them to stages..."]
  | none => ["\nNo performance insights were generated for this job."]

def stageHeaderLine (st : Stage) : String :=
  "\n## Stage " ++ (toString st.entry_id ++ (": " ++ st.name))

/-- Lines printed for one grouped insight (lines 100-103 of tools.py). -/
def insightLines (ins : Insight) : List String :=
  ("     - Type: " ++ ins.insight_type) ::
  (if ins.insight_type == "SLOT_CONTENTION" then
    ["       Contended Slots: " ++ fmtComma ins.slot_contention.contended_slots_count]
  else [])

/-- Lines printed for one query-plan stage (lines 91-103 of tools.py). -/
def stageLines (m : List (Nat × List Insight)) (st : Stage) : List String :=
  [stageHeaderLine st,
   "   Status: " ++ st.status,
   "   Records Read: " ++ fmtComma st.records_read,
   "   Records Written: " ++ fmtComma st.records_written,
   "   Slot Time (ms): " ++ fmtComma st.slot_ms] ++
  (match lookupInsights m st.entry_id with
   | none => []
   | some l => "   *** Query Insights for this stage: ***" :: catLines insightLines l)

/-- The query-plan section (lines 86-103 of tools.py). -/
def planLines (m : List (Nat × List Insight)) (plan : List Stage) : List String :=
  if plan.isEmpty then ["Job has no query plan."]
  else "\n--- Query Execution Plan & Insights ---" :: catLines (stageLines m) plan

/-- All lines `get_job_details` collects in `output_lines`, in order. -/
def jobReportLines (job : Job) : List String :=
  queryInfoLines job ++ refTablesLines job.referenced_tables
    ++ perfNoticeLines job.performance_insights
    ++ planLines (buildStageInsights job.performance_insights) job.query_plan

/-- `get_job_details` of tools.py, applied to the job resource the API
returned: `"\n".join(output_lines)`. -/
def get_job_details (job : Job) : String :=
  String.intercalate "\n" (jobReportLines job)

/-! ## The table-info fetcher (tools.py, lines 109-203)

The body of the `try` (client accessor, reference construction,
`get_table`, `to_api_repr`) is an API round-trip; its outcome is passed in
as an `Except`: `.ok r` is the table's API representation (an open-ended
structured value, kept abstract as a type parameter), `.error ex` is a
raised exception carrying `str(ex)`. -/

inductive TableInfoResult (α : Type) where
  | success (table_repr : α)
  | failure (status : String) (error_details : String)

/-- `get_table_info` of tools.py: the `try/except Exception` around the
fetch. -/
def get_table_info {α : Type} (fetch : Except String α) : TableInfoResult α :=
  match fetch with
  | .ok r => .success r
  | .error ex => .failure "ERROR" ex

/-- The `status` key of the returned mapping (absent on success). -/
def TableInfoResult.statusField {α : Type} : TableInfoResult α → Option String
  | .success _ => none
  | .failure s _ => some s

/-- The `error_details` key of the returned mapping (absent on success). -/
def TableInfoResult.errorDetailsField {α : Type} : TableInfoResult α → Option String
  | .success _ => none
  | .failure _ d => some d

/-! ## The antipattern tool (antipattern_agent/agent.py, lines 8-62) -/

def ANTI_PATTERN_SERVICE_URL : String := "http://localhost:8080/analyze-query-ui"

/-- A decoded JSON value (what `json.loads` produces). -/
inductive JsonVal where
  | null
  | boolean (b : Bool)
  | num (n : Int)
  | str (s : String)
  | arr (elems : List JsonVal)
  | obj (fields : List (String × JsonVal))

def JsonVal.isArr : JsonVal → Bool
  | .arr _ => true
  | _ => false

/-- Rendering of a decoded JSON value into the error message (an
abstraction of Python's `str()`; no claim depends on its exact output). -/
def renderJson : JsonVal → String
  | .null => "None"
  | .boolean true => "True"
  | .boolean false => "False"
  | .num n => toString n
  | .str s => s
  | .arr xs => "[" ++ String.intercalate ", " (xs.attach.map (fun x => renderJson x.1)) ++ "]"
  | .obj kvs =>
    "\x7b" ++ String.intercalate ", " (kvs.attach.map (fun kv => kv.1.1 ++ ": " ++ renderJson kv.1.2)) ++ "\x7d"
decreasing_by
  · have h := List.sizeOf_lt_of_mem x.2
    simp only [JsonVal.arr.sizeOf_spec]
    omega
  · have h := List.sizeOf_lt_of_mem kv.2
    obtain ⟨⟨a, b⟩, hm⟩ := kv
    simp only [Prod.mk.sizeOf_spec] at h
    simp only [JsonVal.obj.sizeOf_spec]
    omega

/-- The body the service returned, together with the standard library's
decoding of it: `parsed = none` models a `json.JSONDecodeError`. -/
structure RespBody where
  raw : String
  parsed : Option JsonVal

/-- Outcome of the `urllib.request.urlopen` round-trip in the `try` block:
a response object, or one of the exceptions the `except` clauses catch. -/
inductive HttpOutcome where
  | response (status : Nat) (body : RespBody)
  | httpError (code : Nat) (reason : String) (errBody : String)
  | urlError (reason : String)
  | otherError (msg : String)

/-- The single-element error list the tool returns on any failure. -/
def toolError (msg : String) : JsonVal :=
  .obj [("name", .str "ToolError"), ("suggestion", .str msg)]

/-- `analyze_bigquery_sql_anti_patterns` of antipattern_agent/agent.py,
applied to the outcome of the HTTP round-trip for `sql_query`. -/
def analyze_bigquery_sql_anti_patterns (sql_query : String) (out : HttpOutcome) :
    List JsonVal :=
  match out with
  | .response status body =>
    if status == 200 then
      match body.parsed with
      | some (.arr xs) => xs
      | some j =>
        [toolError ("Unexpected response format from service: " ++ renderJson j)]
      | none =>
        [toolError ("Failed to decode JSON response from the anti-pattern service. Raw response: " ++ body.raw)]
    else
      [toolError ("Anti-pattern service returned HTTP " ++ toString status ++ ". Response: " ++ body.raw)]
  | .httpError code reason errBody =>
    [toolError ("Anti-pattern service HTTP error: " ++ toString code ++ " " ++ reason ++ ". Details: " ++ errBody)]
  | .urlError reason =>
    [toolError ("Could not connect to the anti-pattern service at " ++ ANTI_PATTERN_SERVICE_URL ++ ". Is it running? Details: " ++ reason)]
  | .otherError msg =>
    [toolError ("An unexpected error occurred while analyzing anti-patterns: " ++ msg)]

/-! ## The batch metadata materializer (create_bq_table.py) -/

/-- Outcome of `client.query(script)` + `query_job.result()` for one
script: success, or a raised exception carrying `str(e)`. -/
inductive ExecOutcome where
  | success
  | failure (msg : String)

def script_1 : String := "
    DECLARE num_days_to_scan INT64 DEFAULT 30;

    CREATE TEMP FUNCTION num_stages_with_perf_insights(query_info ANY TYPE) AS (
      COALESCE((
        SELECT SUM(IF(i.slot_contention, 1, 0) + IF(i.insufficient_shuffle_quota, 1, 0))
        FROM UNNEST(query_info.performance_insights.stage_performance_standalone_insights) i), 0)
      + COALESCE(ARRAY_LENGTH(query_info.performance_insights.stage_performance_change_insights), 0)
    );

    CREATE SCHEMA IF NOT EXISTS optimization_workshop;
    CREATE OR REPLACE TABLE optimization_workshop.queries_grouped_by_hash_project AS
    WITH JobData AS (
      SELECT
        statement_type,
        query_info.query_hashes.normalized_literals AS query_hash,
        project_id,
        reservation_id,
        query_info,
        job_id,
        parent_job_id,
        query,
        total_slot_ms,
        total_bytes_processed,
        user_email,
        start_time,
        end_time,
        labels,
        referenced_tables,
        creation_time,
        ROW_NUMBER() OVER (PARTITION BY query_info.query_hashes.normalized_literals ORDER BY total_slot_ms DESC) as rn
      FROM
        `region-us`.INFORMATION_SCHEMA.JOBS
      WHERE
        DATE(creation_time) >= CURRENT_DATE - num_days_to_scan
        AND state = 'DONE'
        AND error_result IS NULL
        AND job_type = 'QUERY'
        AND statement_type != 'SCRIPT'
        AND NOT EXISTS (
          SELECT 1
          FROM UNNEST(referenced_tables) AS ref_table
          WHERE
            ref_table.dataset_id = 'INFORMATION_SCHEMA'
            OR STARTS_WITH(ref_table.table_id, 'INFORMATION_SCHEMA.')
        )
    )
    SELECT
      statement_type,
      query_hash,
      COUNT(DISTINCT DATE(start_time)) AS days_active,
      ARRAY_AGG(DISTINCT project_id IGNORE NULLS) AS project_ids,
      ARRAY_AGG(DISTINCT reservation_id IGNORE NULLS) AS reservation_ids,
      SUM(num_stages_with_perf_insights(query_info)) AS num_stages_with_perf_insights,
      COUNT(DISTINCT (project_id || ':us.' || job_id)) AS job_count,
      ANY_VALUE(CASE WHEN rn = 1 THEN query ELSE NULL END) AS top_job_query_text,
      ARRAY_AGG(DISTINCT user_email) AS user_emails,
      SUM(total_bytes_processed) / POW(1024, 3) AS total_gigabytes_processed,
      AVG(total_bytes_processed) / POW(1024, 3) AS avg_gigabytes_processed,
      SUM(total_slot_ms) / (1000 * 60 * 60) AS total_slot_hours,
      AVG(total_slot_ms) / (1000 * 60 * 60) AS avg_total_slot_hours_per_active_day,
      AVG(TIMESTAMP_DIFF(end_time, start_time, SECOND) ) AS avg_job_duration_seconds,
      ARRAY_AGG(DISTINCT FORMAT(\"%T\",labels)) AS labels,
      SUM(total_slot_ms / TIMESTAMP_DIFF(end_time, start_time, MILLISECOND)) AS total_slots,
      AVG(total_slot_ms / TIMESTAMP_DIFF(end_time, start_time, MILLISECOND)) AS avg_total_slots,
      ANY_VALUE(ARRAY(
        SELECT
          ref_table.project_id || '.' ||
          IF(STARTS_WITH(ref_table.dataset_id, '_'), 'TEMP', ref_table.dataset_id)
          || '.' || ref_table.table_id
        FROM UNNEST(referenced_tables) ref_table
      )) AS referenced_tables
    FROM JobData
    GROUP BY statement_type, query_hash;
    "

def script_2 : String := "
    CREATE SCHEMA IF NOT EXISTS optimization_workshop;
    CREATE OR REPLACE TABLE optimization_workshop.table_ddls AS
    SELECT table_catalog, table_schema, table_name, table_type, ddl
    FROM `region-us`.INFORMATION_SCHEMA.TABLES;
    "

/-- `run_bigquery_script` of create_bq_table.py: the console lines it
prints for one script, given the execution outcome.  The `except` clause
swallows the exception, so the function is total and always returns. -/
def run_bigquery_script (outcome : ExecOutcome) (script : String) (script_name : String) :
    List String :=
  ("▶️ Running BigQuery script: " ++ script_name ++ "...") ::
  (match outcome with
   | .success => ["✅ Successfully finished running " ++ script_name ++ "."]
   | .failure e =>
     ["❌ An error occurred while running " ++ script_name ++ ": " ++ e,
      "Failed query:\n---\n" ++ script ++ "\n---"])

/-- `main` of create_bq_table.py: given the `BQ_PROJECT_ID` environment
value and the per-script execution outcomes, the raised configuration
error or the full console log. -/
def create_bq_table_main (env_project : Option String) (o1 o2 : ExecOutcome) :
    Except String (List String) :=
  match env_project with
  | none => .error "BQ_PROJECT_ID environment variable not set."
  | some _ => .ok
      (run_bigquery_script o1 script_1 "Aggregate Query Statistics" ++
       run_bigquery_script o2 script_2 "Extract Table DDLs" ++
       ["\nAll scripts have been executed."])

/-! ## Helper lemmas -/

/-- `run_client_calls` from a memoized state returns the stored client on
every call and never changes the state. -/
lemma run_client_calls_memoized (c : BQClient) (ps : List (Option String)) :
    run_client_calls (some c) ps = (List.replicate ps.length c, some c) := by
  induction ps with
  | nil => rfl
  | cons p ps ih => simp [run_client_calls, get_bq_client, ih, List.replicate_succ]

/-! ## Claims C7, C8, C1, C9 -/

/-- Claim C7: the table-reference formatter maps every present reference
to the dot-joined string `project.dataset.table`, and every absent/falsy
reference to the literal `"N/A"`; it is a total function (no error
conditions). -/
theorem C7_format_table_ref_spec :
    (∀ p d t : String,
      _format_table_ref (some ⟨p, d, t⟩) = p ++ "." ++ d ++ "." ++ t)
    ∧ _format_table_ref none = "N/A" :=
  ⟨fun _ _ _ => rfl, rfl⟩

/-- Claim C8: `get_bq_client` constructs a client on the first call from
the project id that call supplies (or omits), memoizes it, and returns the
identical stored handle on every later call regardless of the project id
passed; after the first call the state never changes, so no later call
constructs a new client or invalidates the stored one.  The third conjunct
runs an arbitrary sequence of calls from the initial (empty) state. -/
theorem C8_client_memoized :
    (∀ p : Option String, get_bq_client none p = (⟨p⟩, some ⟨p⟩))
    ∧ (∀ (c : BQClient) (p : Option String), get_bq_client (some c) p = (c, some c))
    ∧ (∀ (p : Option String) (ps : List (Option String)),
        run_client_calls none (p :: ps) =
          (List.replicate (ps.length + 1) ⟨p⟩, some ⟨p⟩)) := by
  refine ⟨fun _ => rfl, fun _ _ => rfl, fun p ps => ?_⟩
  simp [run_client_calls, get_bq_client, run_client_calls_memoized, List.replicate_succ]

/-- Claim C1 counterexample: the claim says `error_details` is always
non-empty, but `error_details` is `str(ex)`, which is the empty string for
an exception whose message is empty (e.g. `Exception()` raised during
client construction): at that input `get_table_info` returns
`{status: "ERROR", error_details: ""}`, whose `error_details` is empty. -/
theorem C1_counterexample :
    (get_table_info (α := Unit) (Except.error "")).statusField = some "ERROR"
    ∧ (get_table_info (α := Unit) (Except.error "")).errorDetailsField = some "" :=
  ⟨rfl, rfl⟩

/-- Claim C1 (amended): for every input, if an exception is raised during
the table fetch, `get_table_info` catches it and returns a mapping with
`status == "ERROR"` and `error_details` equal to the exception's message
(so non-empty exactly when that message is); it never raises (it is a
total function of the fetch outcome), and on success it returns the table
resource's structured representation unchanged. -/
theorem C1_table_info_result :
    (∀ (α : Type) (r : α), get_table_info (Except.ok r) = TableInfoResult.success r)
    ∧ (∀ (α : Type) (ex : String),
        (get_table_info (α := α) (Except.error ex)) = TableInfoResult.failure "ERROR" ex)
    ∧ (∀ (α : Type) (ex : String),
        (get_table_info (α := α) (Except.error ex)).statusField = some "ERROR"
        ∧ (get_table_info (α := α) (Except.error ex)).errorDetailsField = some ex) :=
  ⟨fun _ _ => rfl, fun _ _ => rfl, fun _ _ => ⟨rfl, rfl⟩⟩

/-- Claim C9: in the batch metadata materializer the two scripts run
sequentially and independently: when script 1 fails with any exception,
the failure and the failing script's full text are logged, the exception
does not propagate (`main` still returns its log, ending with the final
notice), and script 2 still executes with its own outcome reported by the
same per-script logger, unaffected by script 1's failure. -/
theorem C9_scripts_independent :
    (∀ (pid e : String) (o2 : ExecOutcome),
      create_bq_table_main (some pid) (.failure e) o2 =
        .ok (run_bigquery_script (.failure e) script_1 "Aggregate Query Statistics" ++
             run_bigquery_script o2 script_2 "Extract Table DDLs" ++
             ["\nAll scripts have been executed."]))
    ∧ (∀ (e : String) (o2 : ExecOutcome),
      ("❌ An error occurred while running Aggregate Query Statistics: " ++ e)
          ∈ run_bigquery_script (.failure e) script_1 "Aggregate Query Statistics"
      ∧ ("Failed query:\n---\n" ++ script_1 ++ "\n---")
          ∈ run_bigquery_script (.failure e) script_1 "Aggregate Query Statistics"
      ∧ run_bigquery_script o2 script_2 "Extract Table DDLs" =
          ("▶️ Running BigQuery script: Extract Table DDLs..." ::
            match o2 with
            | .success => ["✅ Successfully finished running Extract Table DDLs."]
            | .failure e2 =>
              ["❌ An error occurred while running Extract Table DDLs: " ++ e2,
               "Failed query:\n---\n" ++ script_2 ++ "\n---"])) := by
  refine ⟨fun _ _ _ => rfl, fun e o2 => ⟨?_, ?_, ?_⟩⟩
  · simp [run_bigquery_script]
  · simp [run_bigquery_script]
  · cases o2 <;> rfl

/-! ## Substring containment, for "the suggestion mentions X" -/

/-- `needle` occurs contiguously inside `hay`. -/
def strContains (hay needle : String) : Prop :=
  ∃ a b : List Char, hay.data = a ++ needle.data ++ b

lemma strContains_append_right {s needle : String} (t : String)
    (h : strContains s needle) : strContains (s ++ t) needle := by
  obtain ⟨a, b, hab⟩ := h
  exact ⟨a, b ++ t.data, by rw [String.data_append, hab]; simp⟩

/-! ## Claims C2 and C10 -/

/-- Claim C2: `analyze_bigquery_sql_anti_patterns` never raises (it is a
total function of the HTTP outcome): every non-200 response, undecodable
response body, HTTP/connection failure and unexpected response shape is
translated into the single-element list `[{name: "ToolError", suggestion:
message}]`.  An HTTP 500 — whether surfaced as a response object or as a
raised `HTTPError` — yields a ToolError whose suggestion mentions "HTTP"
and "500", and an unreachable service (`URLError`) yields a ToolError
whose suggestion mentions the configured service URL. -/
theorem C2_antipattern_error_handling :
    (∀ (sql : String) (status : Nat) (body : RespBody), status ≠ 200 →
      analyze_bigquery_sql_anti_patterns sql (.response status body) =
        [toolError ("Anti-pattern service returned HTTP " ++ toString status
          ++ ". Response: " ++ body.raw)])
    ∧ (∀ (sql raw : String),
      analyze_bigquery_sql_anti_patterns sql (.response 200 ⟨raw, none⟩) =
        [toolError ("Failed to decode JSON response from the anti-pattern service. Raw response: " ++ raw)])
    ∧ (∀ (sql raw : String) (j : JsonVal), j.isArr = false →
      analyze_bigquery_sql_anti_patterns sql (.response 200 ⟨raw, some j⟩) =
        [toolError ("Unexpected response format from service: " ++ renderJson j)])
    ∧ (∀ (sql reason errBody : String) (code : Nat),
      analyze_bigquery_sql_anti_patterns sql (.httpError code reason errBody) =
        [toolError ("Anti-pattern service HTTP error: " ++ toString code ++ " "
          ++ reason ++ ". Details: " ++ errBody)])
    ∧ (∀ (sql reason : String),
      analyze_bigquery_sql_anti_patterns sql (.urlError reason) =
        [toolError ("Could not connect to the anti-pattern service at "
          ++ ANTI_PATTERN_SERVICE_URL ++ ". Is it running? Details: " ++ reason)])
    ∧ (∀ (sql msg : String),
      analyze_bigquery_sql_anti_patterns sql (.otherError msg) =
        [toolError ("An unexpected error occurred while analyzing anti-patterns: " ++ msg)])
    ∧ (∀ (sql : String) (body : RespBody),
      strContains ("Anti-pattern service returned HTTP " ++ toString (500 : Nat)
          ++ ". Response: " ++ body.raw) "HTTP"
      ∧ strContains ("Anti-pattern service returned HTTP " ++ toString (500 : Nat)
          ++ ". Response: " ++ body.raw) "500")
    ∧ (∀ (sql reason errBody : String),
      strContains ("Anti-pattern service HTTP error: " ++ toString (500 : Nat) ++ " "
          ++ reason ++ ". Details: " ++ errBody) "HTTP"
      ∧ strContains ("Anti-pattern service HTTP error: " ++ toString (500 : Nat) ++ " "
          ++ reason ++ ". Details: " ++ errBody) "500")
    ∧ (∀ (sql reason : String),
      strContains ("Could not connect to the anti-pattern service at "
          ++ ANTI_PATTERN_SERVICE_URL ++ ". Is it running? Details: " ++ reason)
        ANTI_PATTERN_SERVICE_URL) := by
  refine ⟨?_, fun _ _ => rfl, ?_, fun _ _ _ _ => rfl, fun _ _ => rfl, fun _ _ => rfl,
    ?_, ?_, ?_⟩
  · intro sql status body h
    have hb : (status == 200) = false := by simpa using h
    simp [analyze_bigquery_sql_anti_patterns, hb]
  · intro sql raw j h
    cases j with
    | null => rfl
    | boolean b => rfl
    | num n => rfl
    | str s => rfl
    | arr xs => simp [JsonVal.isArr] at h
    | obj kvs => rfl
  · intro sql body
    constructor
    · refine strContains_append_right _ (strContains_append_right _ ?_)
      exact ⟨"Anti-pattern service returned ".data, " 500".data,
        by rw [String.data_append]; decide⟩
    · refine strContains_append_right _ (strContains_append_right _ ?_)
      exact ⟨"Anti-pattern service returned HTTP ".data, [],
        by rw [String.data_append]; simp; decide⟩
  · intro sql reason errBody
    constructor
    · refine strContains_append_right _ (strContains_append_right _
        (strContains_append_right _ (strContains_append_right _ ?_)))
      exact ⟨"Anti-pattern service ".data, " error: 500".data,
        by rw [String.data_append]; decide⟩
    · refine strContains_append_right _ (strContains_append_right _
        (strContains_append_right _ (strContains_append_right _ ?_)))
      exact ⟨"Anti-pattern service HTTP error: ".data, [],
        by rw [String.data_append]; simp; decide⟩
  · intro sql reason
    refine strContains_append_right _ (strContains_append_right _ ?_)
    exact ⟨"Could not connect to the anti-pattern service at ".data, [],
      by rw [String.data_append]; simp⟩

/-- Claim C2 witness: the two hypotheses of `C2_antipattern_error_handling`
(a non-200 status; a decoded value that is not an array) hold at HTTP 500
and at the decoded string value `"ok"`. -/
theorem C2_witness :
    analyze_bigquery_sql_anti_patterns "SELECT 1" (.response 500 ⟨"boom", none⟩) =
      [toolError ("Anti-pattern service returned HTTP " ++ toString (500 : Nat)
        ++ ". Response: " ++ "boom")]
    ∧ analyze_bigquery_sql_anti_patterns "SELECT 1" (.response 200 ⟨"ok", some (.str "ok")⟩) =
      [toolError ("Unexpected response format from service: " ++ renderJson (.str "ok"))] :=
  ⟨C2_antipattern_error_handling.1 "SELECT 1" 500 ⟨"boom", none⟩ (by decide),
   C2_antipattern_error_handling.2.2.1 "SELECT 1" "ok" (.str "ok") rfl⟩

/-- Claim C10: on an HTTP 200 response whose body decodes to a JSON array,
the tool returns exactly that parsed array, element for element unchanged
and with no validation of the elements' shape (the elements are arbitrary
JSON values); a 200 body decoding to a non-array JSON value is instead
replaced by a single ToolError entry. -/
theorem C10_array_passthrough :
    (∀ (sql raw : String) (xs : List JsonVal),
      analyze_bigquery_sql_anti_patterns sql (.response 200 ⟨raw, some (.arr xs)⟩) = xs)
    ∧ (∀ (sql raw : String) (j : JsonVal), j.isArr = false →
      analyze_bigquery_sql_anti_patterns sql (.response 200 ⟨raw, some j⟩) =
        [toolError ("Unexpected response format from service: " ++ renderJson j)]) := by
  refine ⟨fun _ _ _ => rfl, ?_⟩
  intro sql raw j h
  cases j with
  | null => rfl
  | boolean b => rfl
  | num n => rfl
  | str s => rfl
  | arr xs => simp [JsonVal.isArr] at h
  | obj kvs => rfl

/-- Claim C10 witness: the non-array hypothesis of `C10_array_passthrough`
holds at the decoded JSON object value `null`; the array conjunct is also
instantiated at a two-element array whose elements lack the
name/suggestion shape, confirming the absence of validation. -/
theorem C10_witness :
    analyze_bigquery_sql_anti_patterns "q" (.response 200 ⟨"null", some .null⟩) =
      [toolError ("Unexpected response format from service: " ++ renderJson .null)]
    ∧ analyze_bigquery_sql_anti_patterns "q"
        (.response 200 ⟨"[1, \x7b\x7d]", some (.arr [.num 1, .obj []])⟩) =
      [JsonVal.num 1, JsonVal.obj []] :=
  ⟨C10_array_passthrough.2 "q" "null" .null rfl,
   C10_array_passthrough.1 "q" "[1, \x7b\x7d]" [.num 1, .obj []]⟩

/-! ## Line classifiers for the job report

Each line the reporter emits starts with a fixed prefix that identifies
which `append` produced it; the classifiers below decide a line's kind
from its first characters, and the lemmas show that each line template
matches exactly the intended classifier, whatever the embedded data. -/

/-- The first `k` characters of `s` are exactly `pat`. -/
def takeIs (k : Nat) (pat : List Char) (s : String) : Bool :=
  s.data.take k == pat

/-- A stage-header line `"\n## Stage ..."`. -/
def isStageHeaderLine (s : String) : Bool := takeIs 2 ['\n', '#'] s

/-- A referenced-table item line `"  - ..."`. -/
def isRefTableItemLine (s : String) : Bool := takeIs 4 [' ', ' ', '-', ' '] s

/-- A contended-slot-count line `"       Contended Slots: ..."`. -/
def isContendedLine (s : String) : Bool :=
  takeIs 8 [' ', ' ', ' ', ' ', ' ', ' ', ' ', 'C'] s

/-- An insight-type line `"     - Type: ..."`. -/
def isTypeLine (s : String) : Bool := takeIs 6 [' ', ' ', ' ', ' ', ' ', '-'] s

/-- The exact line emitted for an insight of type SLOT_CONTENTION. -/
def slotTypeLine : String := "     - Type: SLOT_CONTENTION"

lemma takeIs_append (k : Nat) (pat : List Char) (s t : String)
    (hlen : k ≤ s.data.length) : takeIs k pat (s ++ t) = takeIs k pat s := by
  unfold takeIs
  rw [String.data_append, List.take_append_eq_append_take,
    Nat.sub_eq_zero_of_le hlen, List.take_zero, List.append_nil]

/-- A literal prefix of length at least `k` determines `takeIs k pat`
whatever follows it. -/
lemma takeIs_lit {b : Bool} (k : Nat) (pat : List Char) (lit x : String)
    (h1 : k ≤ lit.data.length) (h2 : takeIs k pat lit = b) :
    takeIs k pat (lit ++ x) = b := by rw [takeIs_append k pat lit x h1]; exact h2

/-! Per-template classifier facts. -/

lemma hdr_queryText (x : String) : isStageHeaderLine ("Query Text:\n" ++ x) = false :=
  takeIs_lit 2 _ _ x (by decide) (by decide)

lemma hdr_item (x : String) : isStageHeaderLine ("  - " ++ x) = false :=
  takeIs_lit 2 _ _ x (by decide) (by decide)

lemma hdr_stageHeader (x : String) : isStageHeaderLine ("\n## Stage " ++ x) = true :=
  takeIs_lit 2 _ _ x (by decide) (by decide)

lemma hdr_status (x : String) : isStageHeaderLine ("   Status: " ++ x) = false :=
  takeIs_lit 2 _ _ x (by decide) (by decide)

lemma hdr_recordsRead (x : String) : isStageHeaderLine ("   Records Read: " ++ x) = false :=
  takeIs_lit 2 _ _ x (by decide) (by decide)

lemma hdr_recordsWritten (x : String) :
    isStageHeaderLine ("   Records Written: " ++ x) = false :=
  takeIs_lit 2 _ _ x (by decide) (by decide)

lemma hdr_slotTime (x : String) : isStageHeaderLine ("   Slot Time (ms): " ++ x) = false :=
  takeIs_lit 2 _ _ x (by decide) (by decide)

lemma hdr_typeLine (x : String) : isStageHeaderLine ("     - Type: " ++ x) = false :=
  takeIs_lit 2 _ _ x (by decide) (by decide)

lemma hdr_contended (x : String) :
    isStageHeaderLine ("       Contended Slots: " ++ x) = false :=
  takeIs_lit 2 _ _ x (by decide) (by decide)

lemma item_queryText (x : String) : isRefTableItemLine ("Query Text:\n" ++ x) = false :=
  takeIs_lit 4 _ _ x (by decide) (by decide)

lemma item_item (x : String) : isRefTableItemLine ("  - " ++ x) = true :=
  takeIs_lit 4 _ _ x (by decide) (by decide)

lemma item_stageHeader (x : String) : isRefTableItemLine ("\n## Stage " ++ x) = false :=
  takeIs_lit 4 _ _ x (by decide) (by decide)

lemma item_status (x : String) : isRefTableItemLine ("   Status: " ++ x) = false :=
  takeIs_lit 4 _ _ x (by decide) (by decide)

lemma item_recordsRead (x : String) :
    isRefTableItemLine ("   Records Read: " ++ x) = false :=
  takeIs_lit 4 _ _ x (by decide) (by decide)

lemma item_recordsWritten (x : String) :
    isRefTableItemLine ("   Records Written: " ++ x) = false :=
  takeIs_lit 4 _ _ x (by decide) (by decide)

lemma item_slotTime (x : String) : isRefTableItemLine ("   Slot Time (ms): " ++ x) = false :=
  takeIs_lit 4 _ _ x (by decide) (by decide)

lemma item_typeLine (x : String) : isRefTableItemLine ("     - Type: " ++ x) = false :=
  takeIs_lit 4 _ _ x (by decide) (by decide)

lemma item_contended (x : String) :
    isRefTableItemLine ("       Contended Slots: " ++ x) = false :=
  takeIs_lit 4 _ _ x (by decide) (by decide)

lemma cont_queryText (x : String) : isContendedLine ("Query Text:\n" ++ x) = false :=
  takeIs_lit 8 _ _ x (by decide) (by decide)

lemma cont_item (x : String) : isContendedLine ("  - " ++ x) = false := by
  show takeIs 8 _ ("  - " ++ x) = false
  unfold takeIs
  rw [String.data_append]
  rfl

lemma cont_stageHeader (x : String) : isContendedLine ("\n## Stage " ++ x) = false :=
  takeIs_lit 8 _ _ x (by decide) (by decide)

lemma cont_status (x : String) : isContendedLine ("   Status: " ++ x) = false :=
  takeIs_lit 8 _ _ x (by decide) (by decide)

lemma cont_recordsRead (x : String) : isContendedLine ("   Records Read: " ++ x) = false :=
  takeIs_lit 8 _ _ x (by decide) (by decide)

lemma cont_recordsWritten (x : String) :
    isContendedLine ("   Records Written: " ++ x) = false :=
  takeIs_lit 8 _ _ x (by decide) (by decide)

lemma cont_slotTime (x : String) : isContendedLine ("   Slot Time (ms): " ++ x) = false :=
  takeIs_lit 8 _ _ x (by decide) (by decide)

lemma cont_typeLine (x : String) : isContendedLine ("     - Type: " ++ x) = false :=
  takeIs_lit 8 _ _ x (by decide) (by decide)

lemma cont_contended (x : String) :
    isContendedLine ("       Contended Slots: " ++ x) = true :=
  takeIs_lit 8 _ _ x (by decide) (by decide)

lemma type_queryText (x : String) : isTypeLine ("Query Text:\n" ++ x) = false :=
  takeIs_lit 6 _ _ x (by decide) (by decide)

lemma type_item (x : String) : isTypeLine ("  - " ++ x) = false := by
  show takeIs 6 _ ("  - " ++ x) = false
  unfold takeIs
  rw [String.data_append]
  rfl

lemma type_stageHeader (x : String) : isTypeLine ("\n## Stage " ++ x) = false :=
  takeIs_lit 6 _ _ x (by decide) (by decide)

lemma type_status (x : String) : isTypeLine ("   Status: " ++ x) = false :=
  takeIs_lit 6 _ _ x (by decide) (by decide)

lemma type_recordsRead (x : String) : isTypeLine ("   Records Read: " ++ x) = false :=
  takeIs_lit 6 _ _ x (by decide) (by decide)

lemma type_recordsWritten (x : String) :
    isTypeLine ("   Records Written: " ++ x) = false :=
  takeIs_lit 6 _ _ x (by decide) (by decide)

lemma type_slotTime (x : String) : isTypeLine ("   Slot Time (ms): " ++ x) = false :=
  takeIs_lit 6 _ _ x (by decide) (by decide)

lemma type_contended (x : String) :
    isTypeLine ("       Contended Slots: " ++ x) = false :=
  takeIs_lit 6 _ _ x (by decide) (by decide)

/-- A line that is not an insight-type line differs from `slotTypeLine`. -/
lemma ne_slotTypeLine_of_not_typeLine {s : String} (h : isTypeLine s = false) :
    s ≠ slotTypeLine := by
  intro he
  rw [he] at h
  exact absurd h (by decide)

/-- An insight-type line for a type other than SLOT_CONTENTION differs
from `slotTypeLine`. -/
lemma typeLine_ne_slotTypeLine {t : String} (h : t ≠ "SLOT_CONTENTION") :
    ("     - Type: " ++ t) ≠ slotTypeLine := by
  intro he
  apply h
  have hd := congrArg String.data he
  rw [String.data_append] at hd
  rw [show slotTypeLine.data = "     - Type: ".data ++ "SLOT_CONTENTION".data from by decide] at hd
  exact String.ext (List.append_cancel_left hd)

/-! ## The contended-slots adjacency invariant (claim C3)

`lineChain l` says: a contended-slot-count line appears at position `i+1`
exactly when the line at position `i` is the SLOT_CONTENTION type line,
and the first line is never a contended-slot-count line.  Positions out of
range read as `""`, which is neither; this makes the property compose
under `++` with no side conditions. -/

def lineChain (l : List String) : Prop :=
  (∀ i : Nat, (isContendedLine (l.getD (i + 1) "") = true ↔ l.getD i "" = slotTypeLine))
  ∧ isContendedLine (l.getD 0 "") = false

lemma getD_mem_or_default (l : List String) (i : Nat) :
    l.getD i "" ∈ l ∨ l.getD i "" = "" := by
  rcases Nat.lt_or_ge i l.length with h | h
  · left
    rw [List.getD_eq_getElem l "" h]
    exact List.getElem_mem h
  · right
    exact List.getD_eq_default l "" h

lemma lineChain_nil : lineChain [] := by
  constructor
  · intro i
    rw [List.getD_nil, List.getD_nil]
    decide
  · rw [List.getD_nil]
    decide

/-- Any list of lines none of which is contended or the SLOT_CONTENTION
type line is a `lineChain`. -/
lemma lineChain_of_forall {l : List String}
    (h1 : ∀ s ∈ l, isContendedLine s = false)
    (h2 : ∀ s ∈ l, s ≠ slotTypeLine) : lineChain l := by
  constructor
  · intro i
    constructor
    · intro hc
      exfalso
      rcases getD_mem_or_default l (i + 1) with hm | hd
      · rw [h1 _ hm] at hc
        exact absurd hc (by decide)
      · rw [hd] at hc
        exact absurd hc (by decide)
    · intro hs
      exfalso
      rcases getD_mem_or_default l i with hm | hd
      · exact h2 _ hm hs
      · rw [hd] at hs
        exact absurd hs (by decide)
  · rcases getD_mem_or_default l 0 with hm | hd
    · exact h1 _ hm
    · rw [hd]
      decide

lemma lineChain_append {a b : List String} (ha : lineChain a) (hb : lineChain b) :
    lineChain (a ++ b) := by
  obtain ⟨ha1, ha2⟩ := ha
  obtain ⟨hb1, hb2⟩ := hb
  constructor
  · intro i
    rcases Nat.lt_or_ge (i + 1) a.length with h1 | h1
    · rw [List.getD_append a b "" (i + 1) h1,
        List.getD_append a b "" i (Nat.lt_of_succ_lt h1)]
      exact ha1 i
    · rcases Nat.lt_or_ge i a.length with h2 | h2
      · -- the boundary pair: last line of `a`, first line of `b`
        rw [List.getD_append_right a b "" (i + 1) h1, List.getD_append a b "" i h2]
        have he : i + 1 - a.length = 0 := by omega
        rw [he]
        constructor
        · intro hc
          rw [hb2] at hc
          exact absurd hc (by decide)
        · intro hs
          exfalso
          have hlast := (ha1 i).mpr hs
          rw [List.getD_eq_default a "" h1] at hlast
          exact absurd hlast (by decide)
      · rw [List.getD_append_right a b "" (i + 1) (by omega),
          List.getD_append_right a b "" i h2]
        have he : i + 1 - a.length = (i - a.length) + 1 := by omega
        rw [he]
        exact hb1 (i - a.length)
  · cases a with
    | nil => simpa using hb2
    | cons x xs =>
      rw [List.getD_append (x :: xs) b "" 0 (by simp)]
      exact ha2

/-- The two lines of a displayed SLOT_CONTENTION insight form a
`lineChain`. -/
lemma lineChain_pair (k : Nat) :
    lineChain [slotTypeLine, "       Contended Slots: " ++ fmtComma k] := by
  constructor
  · intro i
    match i with
    | 0 =>
      rw [show ([slotTypeLine, "       Contended Slots: " ++ fmtComma k]).getD 1 "" =
          "       Contended Slots: " ++ fmtComma k from rfl,
        show ([slotTypeLine, "       Contended Slots: " ++ fmtComma k]).getD 0 "" =
          slotTypeLine from rfl]
      simp [cont_contended]
    | 1 =>
      rw [show ([slotTypeLine, "       Contended Slots: " ++ fmtComma k]).getD 2 "" =
          "" from rfl,
        show ([slotTypeLine, "       Contended Slots: " ++ fmtComma k]).getD 1 "" =
          "       Contended Slots: " ++ fmtComma k from rfl]
      constructor
      · intro hc
        exact absurd hc (by decide)
      · intro hs
        exact absurd hs (ne_slotTypeLine_of_not_typeLine (type_contended _))
    | n + 2 =>
      rw [show ([slotTypeLine, "       Contended Slots: " ++ fmtComma k]).getD (n + 3) "" =
          "" from by simp [List.getD],
        show ([slotTypeLine, "       Contended Slots: " ++ fmtComma k]).getD (n + 2) "" =
          "" from by simp [List.getD]]
      decide
  · rw [show ([slotTypeLine, "       Contended Slots: " ++ fmtComma k]).getD 0 "" =
      slotTypeLine from rfl]
    decide

lemma lineChain_insight (ins : Insight) : lineChain (insightLines ins) := by
  unfold insightLines
  cases hbe : ins.insight_type == "SLOT_CONTENTION" with
  | false =>
    have hne : ins.insight_type ≠ "SLOT_CONTENTION" := by simpa using hbe
    rw [if_neg (by decide)]
    apply lineChain_of_forall
    · intro s hs
      rw [List.mem_singleton] at hs
      rw [hs]
      exact cont_typeLine _
    · intro s hs
      rw [List.mem_singleton] at hs
      rw [hs]
      exact typeLine_ne_slotTypeLine hne
  | true =>
    have heq : ins.insight_type = "SLOT_CONTENTION" := by simpa using hbe
    rw [if_pos rfl]
    rw [heq]
    exact lineChain_pair _

lemma lineChain_catLines {α : Type} (f : α → List String) (l : List α)
    (h : ∀ x ∈ l, lineChain (f x)) : lineChain (catLines f l) := by
  induction l with
  | nil => exact lineChain_nil
  | cons x xs ih =>
    exact lineChain_append (h x (List.mem_cons_self x xs))
      (ih fun y hy => h y (List.mem_cons_of_mem x hy))

lemma lineChain_stage (m : List (Nat × List Insight)) (st : Stage) :
    lineChain (stageLines m st) := by
  unfold stageLines
  apply lineChain_append
  · apply lineChain_of_forall
    · intro s hs
      simp only [List.mem_cons, List.not_mem_nil, or_false] at hs
      rcases hs with h | h | h | h | h <;> rw [h]
      · exact cont_stageHeader _
      · exact cont_status _
      · exact cont_recordsRead _
      · exact cont_recordsWritten _
      · exact cont_slotTime _
    · intro s hs
      simp only [List.mem_cons, List.not_mem_nil, or_false] at hs
      rcases hs with h | h | h | h | h <;> rw [h] <;>
        apply ne_slotTypeLine_of_not_typeLine
      · exact type_stageHeader _
      · exact type_status _
      · exact type_recordsRead _
      · exact type_recordsWritten _
      · exact type_slotTime _
  · cases h : lookupInsights m st.entry_id with
    | none => exact lineChain_nil
    | some l =>
      show lineChain (["   *** Query Insights for this stage: ***"] ++ catLines insightLines l)
      apply lineChain_append
      · apply lineChain_of_forall
        · intro s hs
          rw [List.mem_singleton] at hs
          rw [hs]
          decide
        · intro s hs
          rw [List.mem_singleton] at hs
          rw [hs]
          decide
      · exact lineChain_catLines _ _ fun ins _ => lineChain_insight ins

/-- The adjacency invariant holds of the whole job report. -/
lemma lineChain_jobReport (job : Job) : lineChain (jobReportLines job) := by
  unfold jobReportLines
  apply lineChain_append
  apply lineChain_append
  apply lineChain_append
  · apply lineChain_of_forall
    · intro s hs
      simp only [queryInfoLines, List.mem_cons, List.not_mem_nil, or_false] at hs
      rcases hs with h | h <;> rw [h]
      · decide
      · exact cont_queryText _
    · intro s hs
      simp only [queryInfoLines, List.mem_cons, List.not_mem_nil, or_false] at hs
      rcases hs with h | h <;> rw [h]
      · decide
      · exact ne_slotTypeLine_of_not_typeLine (type_queryText _)
  · apply lineChain_of_forall
    · intro s hs
      unfold refTablesLines at hs
      cases hemp : job.referenced_tables.isEmpty <;> rw [hemp] at hs
      · simp only [Bool.false_eq_true, if_false, List.mem_cons] at hs
        rcases hs with h | h
        · rw [h]; decide
        · rw [List.mem_map] at h
          obtain ⟨t, _, rfl⟩ := h
          exact cont_item _
      · simp only [if_true, List.mem_singleton] at hs
        rw [hs]; decide
    · intro s hs
      unfold refTablesLines at hs
      cases hemp : job.referenced_tables.isEmpty <;> rw [hemp] at hs
      · simp only [Bool.false_eq_true, if_false, List.mem_cons] at hs
        rcases hs with h | h
        · rw [h]; decide
        · rw [List.mem_map] at h
          obtain ⟨t, _, rfl⟩ := h
          exact ne_slotTypeLine_of_not_typeLine (type_item _)
      · simp only [if_true, List.mem_singleton] at hs
        rw [hs]; decide
  · apply lineChain_of_forall
    · intro s hs
      cases hpi : job.performance_insights <;> rw [hpi] at hs <;>
        simp only [perfNoticeLines, List.mem_singleton] at hs <;> rw [hs] <;> decide
    · intro s hs
      cases hpi : job.performance_insights <;> rw [hpi] at hs <;>
        simp only [perfNoticeLines, List.mem_singleton] at hs <;> rw [hs] <;> decide
  · unfold planLines
    cases hemp : job.query_plan.isEmpty
    · rw [if_neg (by decide)]
      show lineChain (["\n--- Query Execution Plan & Insights ---"] ++
        catLines (stageLines (buildStageInsights job.performance_insights)) job.query_plan)
      apply lineChain_append
      · apply lineChain_of_forall <;> intro s hs <;> rw [List.mem_singleton] at hs <;>
          rw [hs] <;> decide
      · exact lineChain_catLines _ _ fun st _ => lineChain_stage _ st
    · rw [if_pos rfl]
      apply lineChain_of_forall <;> intro s hs <;> rw [List.mem_singleton] at hs <;>
        rw [hs] <;> decide

/-! ## Claim C3: adjacency of contended-slot-count lines, and the
two-stage scenario -/

/-- Index of the first occurrence of `s` (list length if absent). -/
def idxOfStr : List String → String → Nat
  | [], _ => 0
  | a :: rest, s => if a = s then 0 else idxOfStr rest s + 1

/-- Scenario stage 1 of claim C3. -/
def scenarioStage1 : Stage :=
  { entry_id := 1, name := "S00: Input", status := "COMPLETE",
    records_read := 1000, records_written := 500, slot_ms := 1200 }

/-- Scenario stage 2 of claim C3. -/
def scenarioStage2 : Stage :=
  { entry_id := 2, name := "S01: Output", status := "COMPLETE",
    records_read := 500, records_written := 500, slot_ms := 800 }

/-- Scenario job of claim C3: two stages, stage 1 carries one
SLOT_CONTENTION insight with contended-slot count 4, stage 2 none. -/
def scenarioJob : Job :=
  { query := "SELECT a FROM t1 JOIN t2 ON t1.id = t2.id",
    referenced_tables := [],
    performance_insights :=
      some ⟨[⟨1, ⟨"SLOT_CONTENTION", ⟨4⟩⟩⟩]⟩,
    query_plan := [scenarioStage1, scenarioStage2] }

/-- Claim C3: in the job report, a contended-slot-count line stands at a
position exactly when the preceding line is the SLOT_CONTENTION insight
type line — so every displayed SLOT_CONTENTION insight is immediately
followed by a contended-slot-count line, and no insight of another type is
ever followed by one (a contended line also never opens the report).  For
the two-stage scenario job (stage 1: one SLOT_CONTENTION insight with
count 4; stage 2: none) the report contains exactly one
`"       Contended Slots: 4"` line, and it stands after stage 1's header
and before stage 2's header, i.e. inside stage 1's block. -/
theorem C3_slot_contention_adjacency :
    (∀ (job : Job) (i : Nat),
      isContendedLine ((jobReportLines job).getD (i + 1) "") = true
        ↔ (jobReportLines job).getD i "" = slotTypeLine)
    ∧ (∀ job : Job, isContendedLine ((jobReportLines job).getD 0 "") = false)
    ∧ (jobReportLines scenarioJob).count ("       Contended Slots: " ++ fmtComma 4) = 1
    ∧ idxOfStr (jobReportLines scenarioJob) (stageHeaderLine scenarioStage1) <
        idxOfStr (jobReportLines scenarioJob) ("       Contended Slots: " ++ fmtComma 4)
    ∧ idxOfStr (jobReportLines scenarioJob) ("       Contended Slots: " ++ fmtComma 4) <
        idxOfStr (jobReportLines scenarioJob) (stageHeaderLine scenarioStage2) :=
  ⟨fun job i => (lineChain_jobReport job).1 i,
   fun job => (lineChain_jobReport job).2,
   by decide, by decide, by decide⟩

/-! ## Filter computations over the report (claims C4 and C6) -/

lemma filter_catLines {α : Type} (p : String → Bool) (f : α → List String) (l : List α) :
    (catLines f l).filter p = catLines (fun x => (f x).filter p) l := by
  induction l with
  | nil => rfl
  | cons x xs ih => simp only [catLines, List.filter_append, ih]

lemma catLines_nil {α : Type} (l : List α) :
    catLines (fun _ => ([] : List String)) l = [] := by
  induction l with
  | nil => rfl
  | cons x xs ih => simpa [catLines] using ih

lemma catLines_singleton {α : Type} (f : α → String) (l : List α) :
    catLines (fun x => [f x]) l = l.map f := by
  induction l with
  | nil => rfl
  | cons x xs ih => simp [catLines, ih]

lemma filter_hdr_insight (ins : Insight) :
    (insightLines ins).filter isStageHeaderLine = [] := by
  unfold insightLines
  cases hbe : ins.insight_type == "SLOT_CONTENTION"
  · rw [if_neg (by decide)]
    simp [List.filter_cons, hdr_typeLine]
  · rw [if_pos rfl]
    simp [List.filter_cons, hdr_typeLine, hdr_contended]

lemma filter_item_insight (ins : Insight) :
    (insightLines ins).filter isRefTableItemLine = [] := by
  unfold insightLines
  cases hbe : ins.insight_type == "SLOT_CONTENTION"
  · rw [if_neg (by decide)]
    simp [List.filter_cons, item_typeLine]
  · rw [if_pos rfl]
    simp [List.filter_cons, item_typeLine, item_contended]

lemma filter_hdr_stage (m : List (Nat × List Insight)) (st : Stage) :
    (stageLines m st).filter isStageHeaderLine = [stageHeaderLine st] := by
  unfold stageLines
  rw [List.filter_append]
  have h5 : ([stageHeaderLine st,
      "   Status: " ++ st.status,
      "   Records Read: " ++ fmtComma st.records_read,
      "   Records Written: " ++ fmtComma st.records_written,
      "   Slot Time (ms): " ++ fmtComma st.slot_ms]).filter isStageHeaderLine
      = [stageHeaderLine st] := by
    simp [List.filter_cons, stageHeaderLine, hdr_stageHeader, hdr_status,
      hdr_recordsRead, hdr_recordsWritten, hdr_slotTime]
  rw [h5]
  cases h : lookupInsights m st.entry_id with
  | none => rfl
  | some l =>
    have : ("   *** Query Insights for this stage: ***" :: catLines insightLines l).filter
        isStageHeaderLine = [] := by
      rw [List.filter_cons]
      rw [if_neg (by decide)]
      rw [filter_catLines]
      have hc : catLines (fun ins => (insightLines ins).filter isStageHeaderLine) l =
          catLines (fun _ => ([] : List String)) l := by
        induction l with
        | nil => rfl
        | cons x xs ih => simp [catLines, filter_hdr_insight, ih]
      rw [hc, catLines_nil]
    rw [this, List.append_nil]

lemma filter_item_stage (m : List (Nat × List Insight)) (st : Stage) :
    (stageLines m st).filter isRefTableItemLine = [] := by
  unfold stageLines
  rw [List.filter_append]
  have h5 : ([stageHeaderLine st,
      "   Status: " ++ st.status,
      "   Records Read: " ++ fmtComma st.records_read,
      "   Records Written: " ++ fmtComma st.records_written,
      "   Slot Time (ms): " ++ fmtComma st.slot_ms]).filter isRefTableItemLine
      = [] := by
    simp [List.filter_cons, stageHeaderLine, item_stageHeader, item_status,
      item_recordsRead, item_recordsWritten, item_slotTime]
  rw [h5]
  cases h : lookupInsights m st.entry_id with
  | none => rfl
  | some l =>
    have : ("   *** Query Insights for this stage: ***" :: catLines insightLines l).filter
        isRefTableItemLine = [] := by
      rw [List.filter_cons]
      rw [if_neg (by decide)]
      rw [filter_catLines]
      have hc : catLines (fun ins => (insightLines ins).filter isRefTableItemLine) l =
          catLines (fun _ => ([] : List String)) l := by
        induction l with
        | nil => rfl
        | cons x xs ih => simp [catLines, filter_item_insight, ih]
      rw [hc, catLines_nil]
    rw [this]
    rfl

lemma filter_hdr_queryInfo (job : Job) :
    (queryInfoLines job).filter isStageHeaderLine = [] := by
  simp [queryInfoLines, List.filter_cons, hdr_queryText,
    (by decide : isStageHeaderLine "--- Query Information ---" = false)]

lemma filter_item_queryInfo (job : Job) :
    (queryInfoLines job).filter isRefTableItemLine = [] := by
  simp [queryInfoLines, List.filter_cons, item_queryText,
    (by decide : isRefTableItemLine "--- Query Information ---" = false)]

lemma filter_hdr_items (ts : List TableRef) :
    (ts.map refTableItemLine).filter isStageHeaderLine = [] := by
  induction ts with
  | nil => rfl
  | cons t ts ih => simp [List.filter_cons, refTableItemLine, hdr_item, ih]

lemma filter_item_items (ts : List TableRef) :
    (ts.map refTableItemLine).filter isRefTableItemLine = ts.map refTableItemLine := by
  induction ts with
  | nil => rfl
  | cons t ts ih => simp [List.filter_cons, refTableItemLine, item_item, ih]

lemma filter_hdr_refTables (ts : List TableRef) :
    (refTablesLines ts).filter isStageHeaderLine = [] := by
  unfold refTablesLines
  cases h : ts.isEmpty
  · rw [if_neg (by decide)]
    simp [List.filter_cons, filter_hdr_items,
      (by decide : isStageHeaderLine "\nReferenced Tables:" = false)]
  · rw [if_pos rfl]
    simp [List.filter_cons,
      (by decide : isStageHeaderLine "\nReferenced Tables: None" = false)]

lemma filter_item_refTables (ts : List TableRef) :
    (refTablesLines ts).filter isRefTableItemLine =
      if ts.isEmpty then [] else ts.map refTableItemLine := by
  unfold refTablesLines
  cases h : ts.isEmpty
  · rw [if_neg (by decide), if_neg (by decide)]
    simp [List.filter_cons, filter_item_items,
      (by decide : isRefTableItemLine "\nReferenced Tables:" = false)]
  · rw [if_pos rfl, if_pos rfl]
    simp [List.filter_cons,
      (by decide : isRefTableItemLine "\nReferenced Tables: None" = false)]

lemma filter_hdr_perfNotice (pinfo : Option PerformanceInsights) :
    (perfNoticeLines pinfo).filter isStageHeaderLine = [] := by
  cases pinfo <;>
    simp [perfNoticeLines, List.filter_cons,
      (by decide : isStageHeaderLine "\nNo performance insights were generated for this job." = false),
      (by decide : isStageHeaderLine "\nPerformance insights found. Mapping them to stages..." = false)]

lemma filter_item_perfNotice (pinfo : Option PerformanceInsights) :
    (perfNoticeLines pinfo).filter isRefTableItemLine = [] := by
  cases pinfo <;>
    simp [perfNoticeLines, List.filter_cons,
      (by decide : isRefTableItemLine "\nNo performance insights were generated for this job." = false),
      (by decide : isRefTableItemLine "\nPerformance insights found. Mapping them to stages..." = false)]

lemma filter_hdr_plan (m : List (Nat × List Insight)) (plan : List Stage) :
    (planLines m plan).filter isStageHeaderLine =
      if plan.isEmpty then [] else plan.map stageHeaderLine := by
  unfold planLines
  cases h : plan.isEmpty
  · rw [if_neg (by decide), if_neg (by decide)]
    rw [List.filter_cons, if_neg (by decide), filter_catLines]
    have hc : catLines (fun st => (stageLines m st).filter isStageHeaderLine) plan =
        catLines (fun st => [stageHeaderLine st]) plan := by
      induction plan with
      | nil => rfl
      | cons x xs ih => simp [catLines, filter_hdr_stage, ih]
    rw [hc, catLines_singleton]
  · rw [if_pos rfl, if_pos rfl]
    simp [List.filter_cons,
      (by decide : isStageHeaderLine "Job has no query plan." = false)]

lemma filter_item_plan (m : List (Nat × List Insight)) (plan : List Stage) :
    (planLines m plan).filter isRefTableItemLine = [] := by
  unfold planLines
  cases h : plan.isEmpty
  · rw [if_neg (by decide)]
    rw [List.filter_cons, if_neg (by decide), filter_catLines]
    have hc : catLines (fun st => (stageLines m st).filter isRefTableItemLine) plan =
        catLines (fun _ => ([] : List String)) plan := by
      induction plan with
      | nil => rfl
      | cons x xs ih => simp [catLines, filter_item_stage, ih]
    rw [hc, catLines_nil]
  · rw [if_pos rfl]
    simp [List.filter_cons,
      (by decide : isRefTableItemLine "Job has no query plan." = false)]

/-- Claim C4: for a job response with a non-empty query plan, the report
contains exactly the stage-header (`"## Stage"`) lines of the plan's
stages, one per stage and in the API-supplied order (so their number
equals the number of stages); for a job response with no query plan the
report instead contains the one-line notice `"Job has no query plan."`
and no stage-header line at all. -/
theorem C4_stage_lines_count_order (job : Job) :
    (job.query_plan ≠ [] →
      (jobReportLines job).filter isStageHeaderLine = job.query_plan.map stageHeaderLine)
    ∧ (job.query_plan = [] →
      ("Job has no query plan." ∈ jobReportLines job
        ∧ (jobReportLines job).filter isStageHeaderLine = [])) := by
  have hbase : (jobReportLines job).filter isStageHeaderLine =
      if job.query_plan.isEmpty then [] else job.query_plan.map stageHeaderLine := by
    unfold jobReportLines
    rw [List.filter_append, List.filter_append, List.filter_append,
      filter_hdr_queryInfo, filter_hdr_refTables, filter_hdr_perfNotice,
      filter_hdr_plan]
    simp
  constructor
  · intro hne
    rw [hbase, if_neg (by simpa [List.isEmpty_iff] using hne)]
  · intro he
    constructor
    · simp [jobReportLines, planLines, he, List.mem_append]
    · rw [hbase, if_pos (by simp [he])]

/-- Claim C4 witness: the two hypotheses of `C4_stage_lines_count_order`
(a non-empty plan; an empty plan) hold at a one-stage job and at a
plan-less job respectively. -/
theorem C4_witness :
    (jobReportLines ⟨"SELECT 1", [], none, [⟨1, "S00", "COMPLETE", 2, 1, 7⟩]⟩).filter
        isStageHeaderLine =
      ([⟨1, "S00", "COMPLETE", 2, 1, 7⟩] : List Stage).map stageHeaderLine
    ∧ ("Job has no query plan." ∈ jobReportLines ⟨"SELECT 1", [], none, []⟩
      ∧ (jobReportLines ⟨"SELECT 1", [], none, []⟩).filter isStageHeaderLine = []) :=
  ⟨(C4_stage_lines_count_order ⟨"SELECT 1", [], none, [⟨1, "S00", "COMPLETE", 2, 1, 7⟩]⟩).1
      (by simp),
   (C4_stage_lines_count_order ⟨"SELECT 1", [], none, []⟩).2 rfl⟩

/-- Claim C6: for a job response with zero referenced tables, the report
contains the literal referenced-tables sentinel line (rendered as
`"\nReferenced Tables: None"`, i.e. the line `"Referenced Tables: None"`
after a blank line in the joined report) and no table item line; for a
non-empty referenced-tables list, the table item lines of the report are
exactly one line per table, produced by the table-reference formatter, in
the API-provided order. -/
theorem C6_referenced_tables_lines (job : Job) :
    (job.referenced_tables = [] →
      ("\nReferenced Tables: None" ∈ jobReportLines job
        ∧ (jobReportLines job).filter isRefTableItemLine = []))
    ∧ (job.referenced_tables ≠ [] →
      ("\nReferenced Tables:" ∈ jobReportLines job
        ∧ (jobReportLines job).filter isRefTableItemLine =
            job.referenced_tables.map refTableItemLine)) := by
  have hbase : (jobReportLines job).filter isRefTableItemLine =
      if job.referenced_tables.isEmpty then []
      else job.referenced_tables.map refTableItemLine := by
    unfold jobReportLines
    rw [List.filter_append, List.filter_append, List.filter_append,
      filter_item_queryInfo, filter_item_refTables, filter_item_perfNotice,
      filter_item_plan]
    simp
  constructor
  · intro he
    constructor
    · simp [jobReportLines, refTablesLines, he, List.mem_append]
    · rw [hbase, if_pos (by simp [he])]
  · intro hne
    constructor
    · simp [jobReportLines, refTablesLines, List.mem_append,
        (by simpa [List.isEmpty_iff] using hne : job.referenced_tables.isEmpty = false)]
    · rw [hbase, if_neg (by simpa [List.isEmpty_iff] using hne)]

/-- Claim C6 witness: the two hypotheses of `C6_referenced_tables_lines`
(an empty and a non-empty referenced-tables list) hold at two concrete
jobs. -/
theorem C6_witness :
    ("\nReferenced Tables: None" ∈ jobReportLines ⟨"SELECT 1", [], none, []⟩
      ∧ (jobReportLines ⟨"SELECT 1", [], none, []⟩).filter isRefTableItemLine = [])
    ∧ ("\nReferenced Tables:" ∈
        jobReportLines ⟨"SELECT 1", [⟨"p", "d", "t"⟩], none, []⟩
      ∧ (jobReportLines ⟨"SELECT 1", [⟨"p", "d", "t"⟩], none, []⟩).filter
          isRefTableItemLine =
        ([⟨"p", "d", "t"⟩] : List TableRef).map refTableItemLine) :=
  ⟨(C6_referenced_tables_lines ⟨"SELECT 1", [], none, []⟩).1 rfl,
   (C6_referenced_tables_lines ⟨"SELECT 1", [⟨"p", "d", "t"⟩], none, []⟩).2 (by simp)⟩

/-! ## Claim C5: grouping of insights by stage id -/

lemma lookup_addInsight (m : List (Nat × List Insight)) (k sid : Nat) (ins : Insight) :
    lookupInsights (addInsight m k ins) sid =
      if k == sid then
        (match lookupInsights m sid with
         | some a => some (a ++ [ins])
         | none => some [ins])
      else lookupInsights m sid := by
  induction m with
  | nil =>
    simp only [addInsight, lookupInsights]
  | cons hd tl ih =>
    obtain ⟨k0, l0⟩ := hd
    unfold addInsight
    cases h0 : k0 == k
    · rw [if_neg (by decide)]
      cases h1 : k0 == sid <;> cases h2 : k == sid
      · simp only [lookupInsights, h1, Bool.false_eq_true, if_false, ih, h2]
      · simp only [lookupInsights, h1, Bool.false_eq_true, if_false, ih, h2, if_true]
      · simp only [lookupInsights, h1, if_true, h2, Bool.false_eq_true, if_false, ih]
      · exfalso
        have e1 : k0 = sid := by simpa using h1
        have e2 : k = sid := by simpa using h2
        rw [e1, e2] at h0
        simp at h0
    · have e0 : k0 = k := by simpa using h0
      subst e0
      rw [if_pos rfl]
      cases h2 : k0 == sid
      · simp only [lookupInsights, h2, Bool.false_eq_true, if_false]
      · simp only [lookupInsights, h2, if_true]

lemma lookup_foldl (l : List StandaloneInsight) (m : List (Nat × List Insight)) (sid : Nat) :
    lookupInsights (l.foldl (fun m si => addInsight m si.stage_id si.insight) m) sid =
      match lookupInsights m sid with
      | some a =>
        some (a ++ (l.filter (fun si => si.stage_id == sid)).map (fun si => si.insight))
      | none =>
        if (l.filter (fun si => si.stage_id == sid)).isEmpty then none
        else some ((l.filter (fun si => si.stage_id == sid)).map (fun si => si.insight)) := by
  induction l generalizing m with
  | nil => cases h : lookupInsights m sid <;> simp [h]
  | cons si l ih =>
    rw [List.foldl_cons, ih, lookup_addInsight]
    cases h1 : si.stage_id == sid <;> cases h2 : lookupInsights m sid <;>
      simp [h1, h2, List.filter_cons]

lemma lookup_buildStageInsights (pinfo : Option PerformanceInsights) (sid : Nat) :
    lookupInsights (buildStageInsights pinfo) sid =
      if ((insightsOf pinfo).filter (fun si => si.stage_id == sid)).isEmpty then none
      else some (((insightsOf pinfo).filter (fun si => si.stage_id == sid)).map
        (fun si => si.insight)) := by
  unfold buildStageInsights
  rw [lookup_foldl]
  rfl

/-- `job` with the insights whose stage id matches no plan stage removed
(the performance-insights field itself stays present or absent as it
was). -/
def filterKnownJob (job : Job) : Job :=
  { job with
    performance_insights := job.performance_insights.map (fun p =>
      ⟨p.stage_performance_standalone_insights.filter
        (fun si => job.query_plan.any (fun st => st.entry_id == si.stage_id))⟩) }

lemma catLines_congr {α : Type} {f g : α → List String} (l : List α)
    (h : ∀ x ∈ l, f x = g x) : catLines f l = catLines g l := by
  induction l with
  | nil => rfl
  | cons x xs ih =>
    simp only [catLines]
    rw [h x (List.mem_cons_self x xs), ih fun y hy => h y (List.mem_cons_of_mem x hy)]

/-- Deleting the insights with unknown stage ids does not change a single
line of the report. -/
lemma report_filterKnown (job : Job) :
    jobReportLines (filterKnownJob job) = jobReportLines job := by
  obtain ⟨q, ts, pinfo, plan⟩ := job
  have hfk : ∀ st : Stage, st ∈ plan →
      (insightsOf ((filterKnownJob ⟨q, ts, pinfo, plan⟩).performance_insights)).filter
          (fun si => si.stage_id == st.entry_id) =
        (insightsOf pinfo).filter (fun si => si.stage_id == st.entry_id) := by
    intro st hst
    cases pinfo with
    | none => rfl
    | some p =>
      show (p.stage_performance_standalone_insights.filter
          (fun si => plan.any (fun s2 => s2.entry_id == si.stage_id))).filter
          (fun si => si.stage_id == st.entry_id) = _
      rw [List.filter_filter]
      apply List.filter_congr
      intro si _
      cases hsi : si.stage_id == st.entry_id
      · simp [hsi]
      · have heq : si.stage_id = st.entry_id := by simpa using hsi
        have hany : plan.any (fun s2 => s2.entry_id == si.stage_id) = true :=
          List.any_eq_true.mpr ⟨st, hst, by simp [heq]⟩
        simp [hsi, hany]
  have h3 : perfNoticeLines ((filterKnownJob ⟨q, ts, pinfo, plan⟩).performance_insights) =
      perfNoticeLines pinfo := by
    cases pinfo <;> rfl
  have h4 : planLines
        (buildStageInsights ((filterKnownJob ⟨q, ts, pinfo, plan⟩).performance_insights))
        plan =
      planLines (buildStageInsights pinfo) plan := by
    unfold planLines
    cases hemp : plan.isEmpty
    · rw [if_neg (by decide), if_neg (by decide)]
      congr 1
      apply catLines_congr
      intro st hst
      unfold stageLines
      rw [lookup_buildStageInsights, lookup_buildStageInsights, hfk st hst]
    · rw [if_pos rfl, if_pos rfl]
  unfold jobReportLines
  rw [show queryInfoLines (filterKnownJob ⟨q, ts, pinfo, plan⟩) =
        queryInfoLines ⟨q, ts, pinfo, plan⟩ from rfl,
    show (filterKnownJob ⟨q, ts, pinfo, plan⟩).referenced_tables = ts from rfl,
    show (filterKnownJob ⟨q, ts, pinfo, plan⟩).query_plan = plan from rfl,
    h3, h4]

/-- Claim C5: `get_job_details` groups the performance insights by stage
id, preserving the API's insight order within each group (looking a stage
up by its id yields exactly the insights carrying that stage id, in
order); insights whose stage id matches no rendered plan stage are
silently omitted (deleting them changes nothing in the report); and a job
lacking the performance-insights field is treated as having no insights —
the grouping is empty and the no-insights notice is printed, not an
error. -/
theorem C5_insight_grouping :
    (∀ (pinfo : Option PerformanceInsights) (sid : Nat),
      lookupInsights (buildStageInsights pinfo) sid =
        if ((insightsOf pinfo).filter (fun si => si.stage_id == sid)).isEmpty then none
        else some (((insightsOf pinfo).filter (fun si => si.stage_id == sid)).map
          (fun si => si.insight)))
    ∧ (∀ job : Job, jobReportLines (filterKnownJob job) = jobReportLines job)
    ∧ (∀ job : Job, job.performance_insights = none →
        buildStageInsights job.performance_insights = []
        ∧ "\nNo performance insights were generated for this job." ∈ jobReportLines job) := by
  refine ⟨lookup_buildStageInsights, report_filterKnown, fun job h => ⟨?_, ?_⟩⟩
  · rw [h]
    rfl
  · simp [jobReportLines, perfNoticeLines, h, List.mem_append]

/-- Claim C5 witness: the absent-field hypothesis of `C5_insight_grouping`
holds at a job whose performance-insights field is absent. -/
theorem C5_witness :
    buildStageInsights (Job.mk "SELECT 1" [] none []).performance_insights = []
    ∧ "\nNo performance insights were generated for this job."
        ∈ jobReportLines (Job.mk "SELECT 1" [] none []) :=
  C5_insight_grouping.2.2 (Job.mk "SELECT 1" [] none []) rfl

end BQOpt
